import Mathlib

/-!
Shallow embedding of the Florida Hurricane Risk Lab simulation core
(`src/app.py` and `src/models/models:loss_model.py`).

Real-number quantities in the Python source are modelled exactly as
rationals (`ℚ`); random draws (Poisson storm counts, normal wind draws,
uniform location draws) become explicit inputs of the embedded functions,
so each function is the deterministic map from its drawn randomness and
parameters to its output, exactly as in the source.
-/

namespace HurricaneSim

/-- A row of the portfolio table built by `get_portfolio` in `src/app.py`
(columns: city, insured_value, construction_type, lat, lon). -/
structure Property where
  city : String
  insured_value : ℚ
  construction_type : String
  lat : ℚ
  lon : ℚ
deriving Repr, DecidableEq

/-- The fixed eight-city portfolio from `get_portfolio` in `src/app.py`. -/
def get_portfolio : List Property :=
  [ ⟨"Miami", 500000, "wood", 25.7617, -80.1918⟩,
    ⟨"Tampa", 750000, "brick", 27.9478, -82.4584⟩,
    ⟨"Tallahassee", 1000000, "concrete", 30.4383, -84.2807⟩,
    ⟨"Orlando", 600000, "wood", 28.5383, -81.3792⟩,
    ⟨"Ft Lauderdale", 800000, "brick", 26.1224, -80.1373⟩,
    ⟨"Jacksonville", 1200000, "concrete", 30.3322, -81.6557⟩,
    ⟨"Key West", 450000, "wood", 24.5551, -81.7799⟩,
    ⟨"Pensacola", 900000, "concrete", 30.4213, -87.2169⟩ ]

/-- clamp x to the interval from lo to hi, as written in the spec formula
clamp(x, lo, hi) = max lo (min hi x). -/
def clamp (lo hi x : ℚ) : ℚ := max lo (min hi x)

/-- Python's `str.lower()` on the ASCII class names used by the source,
embedded as character-wise lowering (structural recursion over the
character list, so that it evaluates inside the kernel). -/
def pyLower (s : String) : String := String.mk (s.data.map Char.toLower)

namespace App

/-- `vulnerability(wind_mph, construction)` from `src/app.py`:
base = max(0, min(1, wind/150)); multiplier looked up on the lowercased
construction string in the dict given wood 1.5, brick 1.15, concrete 0.75,
default 1.0; result = min(1, base * mult). -/
def vulnerability (wind_mph : ℚ) (construction : String) : ℚ :=
  let base : ℚ := max 0 (min 1 (wind_mph / 150))
  let mult : ℚ :=
    if pyLower construction = "wood" then 1.5
    else if pyLower construction = "brick" then 1.15
    else if pyLower construction = "concrete" then 0.75
    else 1
  min 1 (base * mult)

end App

/-- `radius_km = wind * 0.5` as in `calculate_loss` of both source files. -/
def radius_km (wind : ℚ) : ℚ := wind * 0.5

/-- The squared degree distance `(lat - center_lat)^2 + (lon - center_lon)^2`
appearing under the square root in the distance formula of `calculate_loss`
in both source files. -/
def distSq (lat lon : ℚ) (center : ℚ × ℚ) : ℚ :=
  (lat - center.1) ^ 2 + (lon - center.2) ^ 2

/-- The source test `dist <= radius_km` with
`dist = sqrt((lat-c0)^2 + (lon-c1)^2) * 111`, stated square-root-free over
ℚ: `sqrt d2 * 111 ≤ r` iff `0 ≤ r` and `d2 * 111^2 ≤ r^2` (111^2 = 12321).
The equivalence with the real square-root formulation is proved in
`withinRadius_iff_sqrt` below. -/
def withinRadius (lat lon : ℚ) (wind : ℚ) (center : ℚ × ℚ) : Prop :=
  0 ≤ radius_km wind ∧ distSq lat lon center * 12321 ≤ radius_km wind ^ 2

instance (lat lon wind : ℚ) (center : ℚ × ℚ) :
    Decidable (withinRadius lat lon wind center) :=
  inferInstanceAs (Decidable (And _ _))

namespace App

/-- `calculate_loss(df, wind, center)` from `src/app.py`: iterate the rows
in order; an affected row contributes `insured_value * dmg` with
`dmg = vulnerability(wind, construction_type)` and the impact record
`(lat, lon, dmg)`; an unaffected row contributes nothing and the record
`(lat, lon, 0)`; returns the accumulated total and the impact list. -/
def calculate_loss (df : List Property) (wind : ℚ) (center : ℚ × ℚ) :
    ℚ × List (ℚ × ℚ × ℚ) :=
  match df with
  | [] => (0, [])
  | row :: rest =>
    let tail := calculate_loss rest wind center
    if withinRadius row.lat row.lon wind center then
      let dmg := vulnerability wind row.construction_type
      (row.insured_value * dmg + tail.1, (row.lat, row.lon, dmg) :: tail.2)
    else
      (tail.1, (row.lat, row.lon, 0) :: tail.2)

end App

namespace Models

/-- `vulnerability_function(wind_speed, threshold=150)` from
`src/models/models:loss_model.py`: `min(1, max(0, wind_speed / threshold))`.
Note it takes no construction class. -/
def vulnerability_function (wind_speed : ℚ) (threshold : ℚ := 150) : ℚ :=
  min 1 (max 0 (wind_speed / threshold))

/-- `calculate_loss(exposure_df, wind_speed, hurricane_center)` from
`src/models/models:loss_model.py`: one damage ratio
`vulnerability_function(wind_speed)` is computed up front (no construction
multiplier); affected rows contribute `insured_value * damage_ratio` and
the record `(lat, lon, damage_ratio)`; unaffected rows contribute loss 0
and the record `(lat, lon, 0)`. -/
def calculate_loss (df : List Property) (wind : ℚ) (center : ℚ × ℚ) :
    ℚ × List (ℚ × ℚ × ℚ) :=
  let dmg := vulnerability_function wind
  match df with
  | [] => (0, [])
  | row :: rest =>
    let tail := calculate_loss rest wind center
    if withinRadius row.lat row.lon wind center then
      (row.insured_value * dmg + tail.1, (row.lat, row.lon, dmg) :: tail.2)
    else
      (tail.1, (row.lat, row.lon, 0) :: tail.2)

end Models

/-- `np.random.uniform(a, b)` modelled via its inverse transform: a unit
draw u in the interval from 0 to 1 is mapped to `a + u * (b - a)`. -/
def uniformDraw (a b u : ℚ) : ℚ := a + u * (b - a)

namespace App

/-- The wind component of `simulate_storm` in `src/app.py`:
`max(74, np.random.normal(110, 25))`, as a function of the drawn normal
value. -/
def simulate_storm_wind (nDraw : ℚ) : ℚ := max 74 nDraw

/-- The center component of `simulate_storm` in `src/app.py`:
`(np.random.uniform(24.3, 31.0), np.random.uniform(-87.8, -79.8))`,
as a function of the two unit draws. -/
def simulate_storm_center (u v : ℚ) : ℚ × ℚ :=
  (uniformDraw 24.3 31.0 u, uniformDraw (-87.8) (-79.8) v)

/-- `simulate_storm()` from `src/app.py`, as a function of its three
underlying draws: returns the floored wind and the uniform center. -/
def simulate_storm (nDraw u v : ℚ) : ℚ × (ℚ × ℚ) :=
  (simulate_storm_wind nDraw, simulate_storm_center u v)

end App

namespace Models

/-- `sample_wind_speed(mean, std)` from `src/models/models:loss_model.py`:
`max(74, norm.rvs(loc=mean, scale=std))`, as a function of the drawn
normal value. -/
def sample_wind_speed (nDraw : ℚ) : ℚ := max 74 nDraw

/-- `simulate_hurricane_center()` from `src/models/models:loss_model.py`:
`(np.random.uniform(24.5, 30.5), np.random.uniform(-87.5, -80.0))`,
as a function of the two unit draws. -/
def simulate_hurricane_center (u v : ℚ) : ℚ × ℚ :=
  (uniformDraw 24.5 30.5 u, uniformDraw (-87.5) (-80.0) v)

end Models

/-- One pre-drawn storm of the full-simulation pool in `src/app.py`
(lines 149-152): a wind value from `winds` and a center from
`lats`/`lons`. -/
structure Storm where
  wind : ℚ
  lat : ℚ
  lon : ℚ
deriving Repr, DecidableEq

/-- The scalar loss of one pool storm against the portfolio:
`calculate_loss(df, winds[idx], (lats[idx], lons[idx]))[0]`. -/
def stormLoss (df : List Property) (s : Storm) : ℚ :=
  (App.calculate_loss df s.wind (s.lat, s.lon)).1

/-- `winds = np.maximum(74, np.random.normal(..., total_storms))` from
`src/app.py` line 150: the element-wise floor at 74 over the drawn
normal values. -/
def windsPool (draws : List ℚ) : List ℚ := draws.map (fun d => max 74 d)

/-- `total_storms = int(sim_years * hurricanes_per_year * climate_factor * 1.5)`
from `src/app.py` line 149 (`int` truncation equals the floor for the
non-negative values this expression takes). -/
def totalStorms (sim_years : ℕ) (hpy climate_factor : ℚ) : ℤ :=
  ⌊(sim_years : ℚ) * hpy * climate_factor * 1.5⌋

/-- The inner storm loop of the full simulation (`src/app.py` lines
158-162): run the drawn storm count `n` down, consuming pool entries at
the running index and accumulating their losses; `break` (stop, keeping
the index) as soon as the index reaches the pool length. Returns the
year's accumulated loss and the new index. -/
def innerLoop (df : List Property) (pool : List Storm) :
    ℕ → ℕ → ℚ × ℕ
  | 0, idx => (0, idx)
  | Nat.succ n, idx =>
    if h : idx < pool.length then
      let rest := innerLoop df pool n (idx + 1)
      (stormLoss df (pool.get ⟨idx, h⟩) + rest.1, rest.2)
    else
      (0, idx)

/-- The year loop of the full simulation (`src/app.py` lines 156-163):
for each year take its Poisson-drawn storm count from `counts`, run the
inner loop from the current pool index, and append the year's loss. -/
def simLoop (df : List Property) (pool : List Storm) :
    List ℕ → ℕ → List ℚ
  | [], _ => []
  | n :: rest, idx =>
    let r := innerLoop df pool n idx
    r.1 :: simLoop df pool rest r.2

/-- The `yearly` list produced by the Run Full Simulation block of
`src/app.py`: the year loop started at pool index 0, given the per-year
Poisson storm counts and the pre-drawn storm pool. -/
def fullSimYearly (counts : List ℕ) (pool : List Storm)
    (df : List Property) : List ℚ :=
  simLoop df pool counts 0

/-- `quick_sim(hpy, wm, ws, cf)` from `src/app.py` lines 111-121, as a
function of the drawn randomness: exactly 300 years; year y draws the
storm list `yearDraws y`, each storm being its raw normal wind draw and
its center, and contributes `calculate_loss(df, max(74, draw), center)[0]`;
the year's losses are summed (an empty year gives 0). -/
def quick_sim (df : List Property)
    (yearDraws : ℕ → List (ℚ × ℚ × ℚ)) : List ℚ :=
  (List.range 300).map (fun y =>
    ((yearDraws y).map (fun s =>
      (App.calculate_loss df (max 74 s.1) (s.2.1, s.2.2)).1)).sum)

/-- The Risk Summary loss array of `src/app.py` line 123:
`losses = quick_sim(hurricanes_per_year, wind_mean, wind_std, climate_factor)`.
The sidebar's `sim_years` value is in scope at the call site but is not
passed to `quick_sim`; it is carried here as an explicit argument to state
that it has no effect. -/
def riskSummaryLosses (sim_years : ℕ) (df : List Property)
    (yearDraws : ℕ → List (ℚ × ℚ × ℚ)) : List ℚ :=
  quick_sim df yearDraws

/-- `losses.mean()` from `src/app.py` line 125. -/
def expectedAnnualLoss (losses : List ℚ) : ℚ := losses.sum / losses.length

/-- `(losses > 10e6).mean()` from `src/app.py` line 127. -/
def probOver10M (losses : List ℚ) : ℚ :=
  ((losses.filter (fun l => decide (10000000 < l))).length : ℚ) / losses.length

/-- Insertion step of descending sorting, placing x before the first
strictly smaller element. -/
def insertDesc (x : ℚ) : List ℚ → List ℚ
  | [] => [x]
  | y :: ys => if y < x then x :: y :: ys else y :: insertDesc x ys

/-- `sorted(yearly, reverse=True)` from `src/app.py` line 171: the annual
losses sorted in descending order (insertion sort, kernel-evaluable). -/
def sortDesc (l : List ℚ) : List ℚ := l.foldr insertDesc []

/-- `np.linspace(1, 0, n)` from `src/app.py` line 172: the n evenly spaced
values from 1 down to 0, value i being `1 - i / (n - 1)` (for n = 1 numpy
returns `[1.0]`, matched here since division by zero is zero in ℚ). -/
def linspaceOneZero (n : ℕ) : List ℚ :=
  (List.range n).map (fun i => 1 - (i : ℚ) / ((n : ℚ) - 1))

/-- The plotted exceedance curve of `src/app.py` line 172: the descending
sorted losses paired position-wise with `np.linspace(1, 0, N)`. -/
def exceedancePoints (yearly : List ℚ) : List (ℚ × ℚ) :=
  (sortDesc yearly).zip (linspaceOneZero yearly.length)

/-- The spec's construction multiplier table: 1.50 for wood, 1.15 for
brick, 0.75 for concrete, 1.0 otherwise. Stated from the spec's words,
for comparison with the source's vulnerability functions. -/
def claimedMultiplier (construction : String) : ℚ :=
  if construction = "wood" then 1.5
  else if construction = "brick" then 1.15
  else if construction = "concrete" then 0.75
  else 1

/-- The spec's damage-ratio formula
`clamp(clamp(wind / 150, 0, 1) * construction_multiplier, 0, 1)`.
Stated from the spec's words, for comparison with the source's
vulnerability functions. -/
def claimedVulnerability (wind : ℚ) (construction : String) : ℚ :=
  clamp 0 1 (clamp 0 1 (wind / 150) * claimedMultiplier construction)

/-- The inverse-transform parametrization of an independent uniform draw
over the rectangle with the given latitude and longitude bounds; a sampler
is uniform over that rectangle exactly when it is this map of its two unit
draws. -/
def uniformPoint (latlo lathi lonlo lonhi u v : ℚ) : ℚ × ℚ :=
  (uniformDraw latlo lathi u, uniformDraw lonlo lonhi v)

/-- Membership in the bounding rectangle named by the spec:
24.3 to 31.0 degrees latitude, -87.8 to -79.8 degrees longitude. -/
def inClaimRect (p : ℚ × ℚ) : Prop :=
  24.3 ≤ p.1 ∧ p.1 ≤ 31.0 ∧ -87.8 ≤ p.2 ∧ p.2 ≤ -79.8

instance (p : ℚ × ℚ) : Decidable (inClaimRect p) :=
  inferInstanceAs (Decidable (And _ (And _ (And _ _))))

/-- Pool-consumption reading of the full-simulation year loop: each year
takes its drawn storm count from the front of the shared pool, in order;
a year whose count exceeds what remains gets only the remaining storms,
and once the pool is exhausted every further drawn storm is skipped and
contributes zero. Stated as the specification side of the refinement
theorem about `fullSimYearly`. -/
def pooledYearTotals (df : List Property) (pool : List Storm) :
    List ℕ → List ℚ
  | [] => []
  | n :: rest =>
    ((pool.take n).map (stormLoss df)).sum ::
      pooledYearTotals df (pool.drop n) rest

/-! ## Helper lemmas -/

/-- The squared degree distance is non-negative. -/
lemma distSq_nonneg (lat lon : ℚ) (center : ℚ × ℚ) :
    0 ≤ distSq lat lon center := by
  unfold distSq
  positivity

/-- The square-root-free affectedness test used in the embedding agrees
with the source formula `sqrt((Δlat)^2 + (Δlon)^2) * 111 ≤ wind * 0.5`
read over the reals. -/
lemma withinRadius_iff_sqrt (lat lon wind : ℚ) (center : ℚ × ℚ) :
    withinRadius lat lon wind center ↔
      Real.sqrt ((distSq lat lon center : ℝ)) * 111 ≤ ((radius_km wind : ℚ) : ℝ) := by
  have hd2 : (0 : ℝ) ≤ ((distSq lat lon center : ℚ) : ℝ) := by
    exact_mod_cast distSq_nonneg lat lon center
  have hmul : Real.sqrt ((distSq lat lon center : ℚ) : ℝ) * 111
      = Real.sqrt (((distSq lat lon center : ℚ) : ℝ) * 12321) := by
    rw [Real.sqrt_mul hd2]
    rw [show Real.sqrt 12321 = 111 by
      rw [show (12321 : ℝ) = 111 ^ 2 by norm_num]
      exact Real.sqrt_sq (by norm_num)]
  rw [hmul, Real.sqrt_le_iff]
  unfold withinRadius
  constructor
  · rintro ⟨h1, h2⟩
    refine ⟨by exact_mod_cast h1, ?_⟩
    exact_mod_cast h2
  · rintro ⟨h1, h2⟩
    refine ⟨by exact_mod_cast h1, ?_⟩
    exact_mod_cast h2

/-- Closed form of `App.calculate_loss`: total and impact list as maps
over the portfolio rows. -/
lemma app_calculate_loss_eq (df : List Property) (wind : ℚ) (center : ℚ × ℚ) :
    App.calculate_loss df wind center =
      ((df.map (fun p => if withinRadius p.lat p.lon wind center
          then App.vulnerability wind p.construction_type * p.insured_value
          else 0)).sum,
        df.map (fun p => (p.lat, p.lon,
          if withinRadius p.lat p.lon wind center
          then App.vulnerability wind p.construction_type else 0))) := by
  induction df with
  | nil => simp [App.calculate_loss]
  | cons p rest ih =>
    by_cases h : withinRadius p.lat p.lon wind center
    · simp [App.calculate_loss, h, ih, mul_comm]
    · simp [App.calculate_loss, h, ih]

/-- Closed form of `Models.calculate_loss`: total and impact list as maps
over the portfolio rows; the damage ratio is `vulnerability_function wind`
for every affected row, independent of construction class. -/
lemma models_calculate_loss_eq (df : List Property) (wind : ℚ) (center : ℚ × ℚ) :
    Models.calculate_loss df wind center =
      ((df.map (fun p => if withinRadius p.lat p.lon wind center
          then Models.vulnerability_function wind * p.insured_value
          else 0)).sum,
        df.map (fun p => (p.lat, p.lon,
          if withinRadius p.lat p.lon wind center
          then Models.vulnerability_function wind else 0))) := by
  induction df with
  | nil => simp [Models.calculate_loss]
  | cons p rest ih =>
    by_cases h : withinRadius p.lat p.lon wind center
    · simp [Models.calculate_loss, h, ih, mul_comm]
    · simp [Models.calculate_loss, h, ih]

/-! ## Claim theorems -/

/-- C1: for every portfolio, wind speed and storm center, both loss
calculators return a total equal to the sum over exactly the properties
within the affected radius (distance `sqrt((Δlat)^2+(Δlon)^2) * 111` at
most `wind * 0.5`) of damage ratio times insured value, every other
property contributing 0, and a per-property detail list with one entry
per property in portfolio order recording damage ratio 0 for unaffected
properties; the affectedness test agrees with the real square-root
distance formula. -/
theorem calculate_loss_spec :
    (∀ (df : List Property) (wind : ℚ) (center : ℚ × ℚ),
      (App.calculate_loss df wind center).1 =
        (df.map (fun p => if withinRadius p.lat p.lon wind center
          then App.vulnerability wind p.construction_type * p.insured_value
          else 0)).sum
      ∧ (App.calculate_loss df wind center).2 =
        df.map (fun p => (p.lat, p.lon,
          if withinRadius p.lat p.lon wind center
          then App.vulnerability wind p.construction_type else 0))
      ∧ (Models.calculate_loss df wind center).1 =
        (df.map (fun p => if withinRadius p.lat p.lon wind center
          then Models.vulnerability_function wind * p.insured_value
          else 0)).sum
      ∧ (Models.calculate_loss df wind center).2 =
        df.map (fun p => (p.lat, p.lon,
          if withinRadius p.lat p.lon wind center
          then Models.vulnerability_function wind else 0))
      ∧ (App.calculate_loss df wind center).2.length = df.length)
    ∧ (∀ (lat lon wind : ℚ) (center : ℚ × ℚ),
      withinRadius lat lon wind center ↔
        Real.sqrt ((distSq lat lon center : ℚ) : ℝ) * 111 ≤ ((radius_km wind : ℚ) : ℝ)) := by
  constructor
  · intro df wind center
    rw [app_calculate_loss_eq, models_calculate_loss_eq]
    refine ⟨rfl, rfl, rfl, rfl, ?_⟩
    simp
  · exact withinRadius_iff_sqrt

/-- C2 counterexample: the damage ratio actually applied by
`Models.calculate_loss` to a wood property hit at wind 100 is 2/3
(no construction multiplier), while the claimed formula
`clamp(clamp(100/150, 0, 1) * 1.5, 0, 1)` gives 1. -/
theorem vulnerability_multiplier_counterexample :
    (Models.calculate_loss [⟨"X", 1, "wood", 25, -80⟩] 100 (25, -80)).1 = 2/3
    ∧ claimedVulnerability 100 "wood" * 1 = 1
    ∧ ((2 : ℚ)/3) ≠ 1 := by
  refine ⟨?_, ?_, by norm_num⟩
  · rw [models_calculate_loss_eq]
    have hin : withinRadius 25 (-80) 100 ((25 : ℚ), (-80 : ℚ)) := by
      unfold withinRadius distSq radius_km
      norm_num
    simp only [List.map_cons, List.map_nil, List.sum_cons, List.sum_nil, hin, if_pos]
    unfold Models.vulnerability_function
    norm_num
  · unfold claimedVulnerability claimedMultiplier clamp
    norm_num

/-- C2 amended: `app.py`'s `vulnerability` equals the claimed formula
`clamp(clamp(w/150, 0, 1) * m, 0, 1)` with the claimed multipliers looked
up on the lowercased class name; but the models file's
`vulnerability_function` applies no construction multiplier: it equals
`clamp(w/150, 0, 1)` for every class. -/
theorem vulnerability_formulas :
    (∀ (w : ℚ) (c : String),
      App.vulnerability w c = claimedVulnerability w (pyLower c))
    ∧ (∀ w : ℚ, Models.vulnerability_function w = clamp 0 1 (w / 150)) := by
  constructor
  · intro w c
    unfold App.vulnerability claimedVulnerability claimedMultiplier clamp
    have hbase : (0 : ℚ) ≤ max 0 (min 1 (w / 150)) := le_max_left 0 _
    split_ifs with h1 h2 h3 <;>
      rw [eq_comm, max_eq_right (le_min (by norm_num) (by positivity))]
  · intro w
    unfold Models.vulnerability_function clamp
    rw [max_min_distrib_left]
    norm_num

/-- C8: for every fixed construction class both vulnerability functions
are monotonically non-decreasing in wind speed, and their results are
bounded in the interval from 0 to 1 for all inputs. -/
theorem vulnerability_monotone_bounded :
    (∀ (c : String) (w1 w2 : ℚ), w1 ≤ w2 →
      App.vulnerability w1 c ≤ App.vulnerability w2 c)
    ∧ (∀ (w : ℚ) (c : String),
      0 ≤ App.vulnerability w c ∧ App.vulnerability w c ≤ 1)
    ∧ (∀ w1 w2 : ℚ, w1 ≤ w2 →
      Models.vulnerability_function w1 ≤ Models.vulnerability_function w2)
    ∧ (∀ w : ℚ,
      0 ≤ Models.vulnerability_function w ∧ Models.vulnerability_function w ≤ 1) := by
  refine ⟨?_, ?_, ?_, ?_⟩
  · intro c w1 w2 h
    unfold App.vulnerability
    have hdiv : w1 / 150 ≤ w2 / 150 := by
      apply div_le_div_of_nonneg_right h
      norm_num
    have hbase : max 0 (min 1 (w1 / 150)) ≤ max 0 (min 1 (w2 / 150)) :=
      max_le_max le_rfl (min_le_min le_rfl hdiv)
    split_ifs <;>
      exact min_le_min le_rfl (mul_le_mul_of_nonneg_right hbase (by norm_num))
  · intro w c
    unfold App.vulnerability
    constructor
    · refine le_min (by norm_num) ?_
      split_ifs <;> positivity
    · exact min_le_left 1 _
  · intro w1 w2 h
    unfold Models.vulnerability_function
    have hdiv : w1 / 150 ≤ w2 / 150 := by
      apply div_le_div_of_nonneg_right h
      norm_num
    exact min_le_min le_rfl (max_le_max le_rfl hdiv)
  · intro w
    unfold Models.vulnerability_function
    exact ⟨le_min (by norm_num) (le_max_left 0 _), min_le_left 1 _⟩

/-- C8 witness: the monotonicity part of `vulnerability_monotone_bounded`
applied at the concrete wind speeds 100 and 120 for a wood property. -/
theorem vulnerability_monotone_bounded_witness :
    (100 : ℚ) ≤ 120 ∧ App.vulnerability 100 "wood" ≤ App.vulnerability 120 "wood" :=
  ⟨by norm_num, vulnerability_monotone_bounded.1 "wood" 100 120 (by norm_num)⟩

/-- C5: every sampled storm wind speed — in `simulate_storm`, in
`sample_wind_speed`, and in the pre-drawn `winds` pool — equals
`max(74, n)` where n is the underlying normal draw, hence is at least
74 mph for every possible draw. -/
theorem wind_floor_spec :
    (∀ n : ℚ, App.simulate_storm_wind n = max 74 n ∧ 74 ≤ App.simulate_storm_wind n)
    ∧ (∀ n u v : ℚ, (App.simulate_storm n u v).1 = max 74 n)
    ∧ (∀ n : ℚ, Models.sample_wind_speed n = max 74 n ∧ 74 ≤ Models.sample_wind_speed n)
    ∧ (∀ draws : List ℚ, windsPool draws = draws.map (fun d => max 74 d)) := by
  refine ⟨fun n => ⟨rfl, le_max_left 74 n⟩, fun n u v => rfl,
    fun n => ⟨rfl, le_max_left 74 n⟩, fun draws => rfl⟩

/-- C6 counterexample: if `simulate_hurricane_center` drew uniformly
within the claimed rectangle 24.3 to 31.0 by -87.8 to -79.8, its draw at
the unit corner (0, 0) would be the rectangle's corner (24.3, -87.8); it
is (24.5, -87.5) instead. -/
theorem center_rect_counterexample :
    Models.simulate_hurricane_center 0 0 = (24.5, -87.5)
    ∧ uniformPoint 24.3 31.0 (-87.8) (-79.8) 0 0 = (24.3, -87.8)
    ∧ ((24.5 : ℚ), (-87.5 : ℚ)) ≠ ((24.3 : ℚ), (-87.8 : ℚ)) := by
  refine ⟨?_, ?_, ?_⟩
  · unfold Models.simulate_hurricane_center uniformDraw
    norm_num
  · unfold uniformPoint uniformDraw
    norm_num
  · intro h
    have := congrArg Prod.fst h
    norm_num at this

/-- C6 amended: `app.py`'s `simulate_storm` center is the independent
uniform draw over the rectangle 24.3 to 31.0 by -87.8 to -79.8, while
the models file's `simulate_hurricane_center` is the independent uniform
draw over the smaller rectangle 24.5 to 30.5 by -87.5 to -80.0; for unit
draws in the interval from 0 to 1, every center sampled by either lies
inside the rectangle 24.3 to 31.0 by -87.8 to -79.8. -/
theorem center_sampler_spec :
    (∀ u v : ℚ, App.simulate_storm_center u v = uniformPoint 24.3 31.0 (-87.8) (-79.8) u v)
    ∧ (∀ u v : ℚ,
      Models.simulate_hurricane_center u v = uniformPoint 24.5 30.5 (-87.5) (-80.0) u v)
    ∧ (∀ u v : ℚ, 0 ≤ u → u ≤ 1 → 0 ≤ v → v ≤ 1 →
      inClaimRect (App.simulate_storm_center u v)
      ∧ inClaimRect (Models.simulate_hurricane_center u v)) := by
  refine ⟨fun u v => rfl, fun u v => rfl, ?_⟩
  intro u v hu0 hu1 hv0 hv1
  unfold inClaimRect App.simulate_storm_center Models.simulate_hurricane_center uniformDraw
  norm_num
  refine ⟨⟨by nlinarith, by nlinarith, by nlinarith, by nlinarith⟩,
    by nlinarith, by nlinarith, by nlinarith, by nlinarith⟩

/-- C6 witness: `center_sampler_spec` applied at the concrete unit draws
(1/2, 1/2): both samplers land inside the claimed rectangle. -/
theorem center_sampler_spec_witness :
    inClaimRect (App.simulate_storm_center (1/2) (1/2))
    ∧ inClaimRect (Models.simulate_hurricane_center (1/2) (1/2)) :=
  center_sampler_spec.2.2 (1/2) (1/2) (by norm_num) (by norm_num)
    (by norm_num) (by norm_num)

/-- C3: evaluation of the plotted exceedance curve on the three-year
annual losses 100, 50, 10. The code pairs the sorted-descending losses
with `np.linspace(1, 0, 3) = [1, 1/2, 0]`, so the largest loss is
assigned exceedance probability 1 and the smallest 0; the claim (and the
dashboard's own explanation of the red line) require the k-th largest
loss to get probability k/N, i.e. 1/3 at the largest up to 1 at the
smallest. -/
theorem exceedance_curve_eval :
    exceedancePoints [100, 50, 10] = [(100, 1), (50, 1/2), (10, 0)]
    ∧ ((1 : ℚ) ≠ 1/3) := by
  constructor
  · show (sortDesc [100, 50, 10]).zip (linspaceOneZero 3) = _
    have hs : sortDesc [100, 50, 10] = [100, 50, 10] := by
      unfold sortDesc
      simp [insertDesc]
      norm_num
    have hl : linspaceOneZero 3 = [1, 1/2, 0] := by
      unfold linspaceOneZero
      simp [List.range_succ]
      norm_num
    rw [hs, hl]
    rfl
  · norm_num

/-- C10: the Risk Summary loss array is produced by `quick_sim` as
exactly 300 simulated years for every parameter setting and randomness;
the sidebar's configured simulation-year count has no effect on it; the
expected-annual-loss and threshold-exceedance statistics are the
empirical statistics of those 300 values. -/
theorem quick_sim_300_spec :
    (∀ (df : List Property) (yearDraws : ℕ → List (ℚ × ℚ × ℚ)),
      (quick_sim df yearDraws).length = 300)
    ∧ (∀ (n m : ℕ) (df : List Property) (yearDraws : ℕ → List (ℚ × ℚ × ℚ)),
      riskSummaryLosses n df yearDraws = riskSummaryLosses m df yearDraws)
    ∧ (∀ (df : List Property) (yearDraws : ℕ → List (ℚ × ℚ × ℚ)),
      expectedAnnualLoss (quick_sim df yearDraws) = (quick_sim df yearDraws).sum / 300)
    ∧ (∀ (df : List Property) (yearDraws : ℕ → List (ℚ × ℚ × ℚ)),
      probOver10M (quick_sim df yearDraws) =
        (((quick_sim df yearDraws).filter (fun l => decide (10000000 < l))).length : ℚ) / 300) := by
  have hlen : ∀ (df : List Property) (yearDraws : ℕ → List (ℚ × ℚ × ℚ)),
      (quick_sim df yearDraws).length = 300 := by
    intro df yearDraws
    unfold quick_sim
    simp
  refine ⟨hlen, fun n m df yearDraws => rfl, ?_, ?_⟩
  · intro df yearDraws
    unfold expectedAnnualLoss
    rw [hlen]
    norm_num
  · intro df yearDraws
    unfold probOver10M
    rw [hlen]
    norm_num

/-- The inner storm loop consumes up to its drawn count from the pool
suffix starting at the running index, summing those storms' losses, and
leaves the index at `min (idx + n) (max idx pool.length)`. -/
lemma innerLoop_eq (df : List Property) (pool : List Storm) :
    ∀ (n idx : ℕ), innerLoop df pool n idx =
      ((((pool.drop idx).take n).map (stormLoss df)).sum,
        min (idx + n) (max idx pool.length)) := by
  intro n
  induction n with
  | zero =>
    intro idx
    unfold innerLoop
    simp
  | succ n ih =>
    intro idx
    by_cases h : idx < pool.length
    · have hdrop : pool.drop idx = pool[idx] :: pool.drop (idx + 1) :=
        List.drop_eq_getElem_cons h
      unfold innerLoop
      rw [dif_pos h, ih (idx + 1), hdrop]
      simp only [List.take_succ_cons, List.map_cons, List.sum_cons]
      refine congrArg (fun z => (_ + _, z)) ?_
      omega
    · have hdrop : pool.drop idx = [] := List.drop_eq_nil_of_le (by omega)
      unfold innerLoop
      rw [dif_neg h, hdrop]
      simp
      omega

/-- The year loop started at index idx behaves as the pool-consumption
reading applied to the pool suffix from idx on. -/
lemma simLoop_eq (df : List Property) (pool : List Storm) :
    ∀ (counts : List ℕ) (idx : ℕ),
      simLoop df pool counts idx = pooledYearTotals df (pool.drop idx) counts := by
  intro counts
  induction counts with
  | nil => intro idx; rfl
  | cons n rest ih =>
    intro idx
    unfold simLoop pooledYearTotals
    rw [innerLoop_eq]
    refine congrArg (fun z => (_ :: z : List ℚ)) ?_
    rw [ih]
    have hdd : (pool.drop idx).drop n = pool.drop (idx + n) := List.drop_drop n idx pool
    rw [hdd]
    rcases le_or_lt (idx + n) (max idx pool.length) with h | h
    · rw [min_eq_left h]
    · rw [min_eq_right (le_of_lt h)]
      rw [List.drop_eq_nil_of_le (le_max_right idx pool.length),
        List.drop_eq_nil_of_le (by omega)]

/-- The full-simulation yearly losses equal the pool-consumption reading
of the whole pool. -/
lemma fullSimYearly_eq (counts : List ℕ) (pool : List Storm)
    (df : List Property) :
    fullSimYearly counts pool df = pooledYearTotals df pool counts := by
  unfold fullSimYearly
  rw [simLoop_eq]
  rw [List.drop_zero]

/-- The pool-consumption reading yields one total per year. -/
lemma pooledYearTotals_length (df : List Property) :
    ∀ (counts : List ℕ) (pool : List Storm),
      (pooledYearTotals df pool counts).length = counts.length := by
  intro counts
  induction counts with
  | nil => intro pool; rfl
  | cons n rest ih =>
    intro pool
    unfold pooledYearTotals
    simp [ih]

/-- With an exhausted (empty) pool every year's total is zero, whatever
storm counts are drawn. -/
lemma pooledYearTotals_nil (df : List Property) :
    ∀ counts : List ℕ,
      pooledYearTotals df [] counts = counts.map (fun _ => (0 : ℚ)) := by
  intro counts
  induction counts with
  | nil => rfl
  | cons n rest ih =>
    unfold pooledYearTotals
    simp [ih]

/-- C9: the full simulation consumes the fixed pre-drawn pool of
`int(sim_years * hurricanes_per_year * climate_factor * 1.5)` storms in
order across the years: year y's total is the sum of the losses of the
next `counts y` pool storms, a year reaching past the end of the pool
gets only the remaining storms, and every storm drawn after the pool is
exhausted is skipped, contributing exactly zero (an exhausted pool gives
every remaining year total 0). -/
theorem full_sim_pool_spec :
    (∀ (counts : List ℕ) (pool : List Storm) (df : List Property),
      fullSimYearly counts pool df = pooledYearTotals df pool counts)
    ∧ (∀ (counts : List ℕ) (pool : List Storm) (df : List Property),
      (fullSimYearly counts pool df).length = counts.length)
    ∧ (∀ (counts : List ℕ) (df : List Property),
      fullSimYearly counts [] df = counts.map (fun _ => 0))
    ∧ (∀ (sim_years : ℕ) (hpy climate_factor : ℚ),
      totalStorms sim_years hpy climate_factor =
        ⌊(sim_years : ℚ) * hpy * climate_factor * 1.5⌋) := by
  refine ⟨fullSimYearly_eq, ?_, ?_, fun y hpy cf => rfl⟩
  · intro counts pool df
    rw [fullSimYearly_eq, pooledYearTotals_length]
  · intro counts df
    rw [fullSimYearly_eq, pooledYearTotals_nil]

/-- C7 counterexample: with rate parameter 0 — outside the documented
domain λ > 0 — nothing fails: the storm pool size
`int(3 * 0 * 1.0 * 1.5)` is 0, every Poisson(0) storm count is 0, and
the simulation driver runs to completion over 3 years returning the full
all-zero annual loss list instead of surfacing an error before sampling. -/
theorem no_validation_counterexample :
    fullSimYearly (List.replicate 3 0) [] get_portfolio = [0, 0, 0]
    ∧ totalStorms 3 0 1 = 0 := by
  constructor
  · rw [fullSimYearly_eq, pooledYearTotals_nil]
    rfl
  · unfold totalStorms
    norm_num

/-- C7 amended: the core performs no input validation. The drivers are
total functions of their parameters and drawn randomness: with rate 0
(outside the domain λ > 0) the full simulation completes and returns an
all-zero annual loss per year, and for every input it returns one total
per configured year rather than failing; parameter domains are enforced
only by the UI sliders outside the core, and the built-in portfolio is
never validated. -/
theorem driver_no_validation_spec :
    (∀ (df : List Property) (n : ℕ),
      fullSimYearly (List.replicate n 0) [] df = List.replicate n 0)
    ∧ (∀ (counts : List ℕ) (pool : List Storm) (df : List Property),
      (fullSimYearly counts pool df).length = counts.length) := by
  constructor
  · intro df n
    rw [fullSimYearly_eq, pooledYearTotals_nil]
    simp
  · intro counts pool df
    rw [fullSimYearly_eq, pooledYearTotals_length]

/-- C4: with sim_years = 1, λ = 0.56 and climate factor 1 the pre-drawn
pool holds `int(1 * 0.56 * 1 * 1.5) = int(0.84) = 0` storms, so a year
whose Poisson draw is 1 storm still gets annual loss 0 — the drawn
storm's loss is silently omitted — although any admissible storm hitting
the portfolio has positive loss (at the minimal wind 74 over Miami the
loss is 370000). -/
theorem pool_exhaustion_eval :
    fullSimYearly [1] [] get_portfolio = [0]
    ∧ totalStorms 1 0.56 1 = 0
    ∧ (App.calculate_loss get_portfolio 74 (25.7617, -80.1918)).1 = 370000 := by
  refine ⟨?_, ?_, ?_⟩
  · rw [fullSimYearly_eq, pooledYearTotals_nil]
    rfl
  · unfold totalStorms
    norm_num
  · norm_num [app_calculate_loss_eq, get_portfolio, withinRadius, distSq, radius_km,
      App.vulnerability, show pyLower "wood" = "wood" from by decide,
      show pyLower "brick" = "brick" from by decide,
      show pyLower "concrete" = "concrete" from by decide]

end HurricaneSim
